import Mathlib

/-!
Verification development for the picdexer repository.

The Go sources are shallowly embedded:
* pure functions become Lean functions;
* Go `float64`/`float32` values are modelled as exact rationals (ℚ) — the
  claims under study concern the algebraic formulas and error/panic paths,
  not rounding;
* fallible Go code returns `Except`; a Go runtime panic (failed type
  assertion, out-of-range slice bound) is modelled as a distinguished
  error constructor, clearly separate from the `error` values the Go code
  returns on purpose;
* external collaborators (exiftool, the filesystem walk, HTTP) are passed
  in as explicit data/oracles, exactly at the boundary where the Go code
  consumes their results.

Strings are modelled at character level; the data handled by the
functions below (GPS tokens, date strings, keys) is ASCII, where Go's
byte-level slicing and Lean's character operations agree.
-/

/-- A dynamically-typed value stored in an exiftool metadata record
(`map[string]interface{}` decoded from JSON in Go): a number (`float64`),
a string, a boolean, or an array (`[]interface{}`). -/
inductive ExifValue : Type where
  | num (q : ℚ)
  | str (s : String)
  | boolean (b : Bool)
  | arr (vs : List ExifValue)

/-- Embedding of `exif.FileMetadata`: the `Fields` map, as an association
list (Go map lookup = first matching key). -/
structure FileMetadata : Type where
  Fields : List (String × ExifValue)

/-- A Go runtime panic (as opposed to a returned `error`). -/
inductive GoPanic : Type where
  | typeAssertion
  | sliceBound
deriving DecidableEq, Repr

/-- Abstraction of Go's `fmt.Sprintf("%v", f)` on a float64 value.  The
exact rendering is not load-bearing for any claim below; only that a
string is produced deterministically from the value. -/
def formatGoFloat (q : ℚ) : String :=
  if q.den = 1 then toString q.num else toString q.num ++ "/" ++ toString q.den

/-- Embedding of `getFloat` (part_000, lines 103–110).  On a present key
the Go code runs the unchecked type assertion `v.(float64)`, which
panics when the value is not a native float64. -/
def getFloat (m : FileMetadata) (k : String) : Except GoPanic (Option ℚ) :=
  match m.Fields.lookup k with
  | none => .ok none
  | some (.num q) => .ok (some q)
  | some _ => .error .typeAssertion

/-- Embedding of `getString` (part_000, lines 112–123): a checked type
switch, so no panic — strings pass through, floats are formatted, any
other type (and a missing key) yields nil. -/
def getString (m : FileMetadata) (k : String) : Option String :=
  match m.Fields.lookup k with
  | some (.str s) => some s
  | some (.num q) => some (formatGoFloat q)
  | _ => none

/-- Go's conversion `uint64(f)` for a float64 `f`, modelled for the
in-range case (truncation toward zero); out-of-range conversions are
unspecified in Go and do not arise in the claims. -/
def goFloatToUint64 (q : ℚ) : ℕ :=
  (Int.toNat ⌊q⌋) % 2 ^ 64

/-- Embedding of `getUint64FromFloat64` (part_000, lines 125–132): same
unchecked `v.(float64)` assertion as `getFloat`. -/
def getUint64FromFloat64 (m : FileMetadata) (k : String) : Except GoPanic (Option ℕ) :=
  match m.Fields.lookup k with
  | none => .ok none
  | some (.num q) => .ok (some (goFloatToUint64 q))
  | some _ => .error .typeAssertion

/-- Character-level splitter on a single separator character, keeping
empty fields: the behaviour of Go's `strings.Split(s, sep)` for a
one-character separator (an ASCII separator byte never occurs inside a
multi-byte UTF-8 sequence, so byte-level and character-level splitting
agree). -/
def goSplitChar (sep : Char) : List Char → List (List Char)
  | [] => [[]]
  | c :: rest =>
    match goSplitChar sep rest with
    | [] => [[]]
    | g :: gs => if c = sep then [] :: g :: gs else (c :: g) :: gs

/-- Embedding of `strings.Split(s, sep)` for a one-character separator. -/
def goSplit (s : String) (sep : Char) : List String :=
  (goSplitChar sep s.toList).map (fun cs => cs.asString)

/-- Leading-segment test on character lists. -/
def listStartsWith : List Char → List Char → Bool
  | [], _ => true
  | _ :: _, [] => false
  | p :: ps, c :: cs => (p = c) && listStartsWith ps cs

/-- Embedding of `strings.HasPrefix(s, pre)`, character by character. -/
def goStartsWith (s pre : String) : Bool :=
  listStartsWith pre.toList s.toList

/-- Value of a digit list, most significant first. -/
def digitsToNat (cs : List Char) : ℕ :=
  cs.foldl (fun a c => 10 * a + (c.toNat - 48)) 0

/-- Splits an optional leading sign off a character list. -/
def splitSign : List Char → ℤ × List Char
  | '-' :: rest => (-1, rest)
  | '+' :: rest => (1, rest)
  | cs => (1, cs)

/-- Parses an optional exponent suffix `[eE][+-]?digits`; returns the
exponent, or `none` when the suffix is malformed. -/
def parseExponent : List Char → Option ℤ
  | [] => some 0
  | e :: rest =>
    if e = 'e' ∨ e = 'E' then
      let (sgn, rest') : ℤ × List Char :=
        match rest with
        | '-' :: r => (-1, r)
        | '+' :: r => (1, r)
        | r => (1, r)
      if rest'.length ≠ 0 ∧ rest'.all Char.isDigit then
        some (sgn * (digitsToNat rest' : ℤ))
      else none
    else none

/-- Embedding of `strconv.ParseFloat` on its decimal fragment: optional
sign, digits with an optional fractional part (at least one digit in the
mantissa), optional decimal exponent.  Hexadecimal floats, digit-group
underscores and `Inf`/`NaN` — which cannot occur in DMS coordinate
tokens — are not modelled.  The value is exact (ℚ); Go rounds it to
float precision, an idealisation noted at the top of this file. -/
def parseGoFloat (s : String) : Option ℚ :=
  let (sgn, cs) := splitSign s.toList
  let intDigits := cs.takeWhile Char.isDigit
  let afterInt := cs.dropWhile Char.isDigit
  let (fracDigits, afterFrac) :=
    match afterInt with
    | '.' :: rest => (rest.takeWhile Char.isDigit, rest.dropWhile Char.isDigit)
    | _ => ([], afterInt)
  if intDigits.length + fracDigits.length = 0 then none
  else
    match parseExponent afterFrac with
    | none => none
    | some e =>
      let num : ℤ :=
        sgn * ((digitsToNat intDigits * 10 ^ fracDigits.length + digitsToNat fracDigits : ℕ) : ℤ)
      if 0 ≤ e then
        some (mkRat (num * ((10 ^ e.toNat : ℕ) : ℤ)) (10 ^ fracDigits.length))
      else
        some (mkRat num (10 ^ fracDigits.length * 10 ^ (-e).toNat))

/-- The error values of `degMinSecToDecimal` (part_000, lines 195–217),
one constructor per `fmt.Errorf` site. -/
inductive DmsErr : Type where
  | degParse (s : String)
  | minParse (s : String)
  | secParse (s : String)
  | unsupportedLetter (s : String)
deriving DecidableEq, Repr

/-- Embedding of `degMinSecToDecimal` (part_000, lines 195–217): parse
the three numeric tokens, pick the sign from the hemisphere letter,
return `(deg + min/60 + sec/3600) * mult`.  (`let` is a Lean keyword, so
the fourth parameter is renamed `letter`.) -/
def degMinSecToDecimal (deg mins secs letter : String) : Except DmsErr ℚ :=
  match parseGoFloat deg with
  | none => .error (.degParse deg)
  | some fDeg =>
    match parseGoFloat mins with
    | none => .error (.minParse mins)
    | some fMin =>
      match parseGoFloat secs with
      | none => .error (.secParse secs)
      | some fSec =>
        if letter = "S" ∨ letter = "W" then
          .ok ((fDeg + fMin / 60 + fSec / 3600) * (-1))
        else if letter = "N" ∨ letter = "E" then
          .ok ((fDeg + fMin / 60 + fSec / 3600) * 1)
        else
          .error (.unsupportedLetter letter)

/-- Embedding of `skipLastChar` (part_000, lines 219–221), i.e.
`src[:len(src)-1]`.  On the empty string the slice bound is `-1`, a
runtime panic in Go. -/
def skipLastChar (src : String) : Except GoPanic String :=
  if src.length = 0 then .error .sliceBound
  else .ok (src.dropRight 1)

/-- Failure outcomes of `convertGPSCoordinates` (part_000, lines
223–237): the token-count check, a wrapped latitude or longitude
conversion error — these three are returned as Go `error` values — or a
runtime panic escaping from `skipLastChar`. -/
inductive GpsError : Type where
  | tokenCount (n : ℕ)
  | latitude (e : DmsErr)
  | longitude (e : DmsErr)
  | panicked (p : GoPanic)
deriving DecidableEq, Repr

/-- Distinguishes the format errors `convertGPSCoordinates` returns as
`error` values from a runtime panic. -/
def GpsError.isFormatError : GpsError → Bool
  | .tokenCount _ => true
  | .latitude _ => true
  | .longitude _ => true
  | .panicked _ => false

/-- Embedding of `convertGPSCoordinates` (part_000, lines 223–237).
`strings.Split(latLong, " ")` must yield exactly 10 tokens; tokens 2, 3,
4, 7 and 8 are passed through `skipLastChar` (whose panic on an empty
token propagates), tokens 0, 5 and 9 are used as-is.  A latitude error
is returned before tokens 7 and 8 are ever touched, matching Go's
evaluation order. -/
def convertGPSCoordinates (latLong : String) : Except GpsError (ℚ × ℚ) :=
  match goSplit latLong ' ' with
  | [s0, _s1, s2, s3, s4, s5, _s6, s7, s8, s9] =>
    match skipLastChar s2, skipLastChar s3, skipLastChar s4 with
    | .ok latMin, .ok latSec, .ok latLetter =>
      match degMinSecToDecimal s0 latMin latSec latLetter with
      | .error e => .error (.latitude e)
      | .ok lat =>
        match skipLastChar s7, skipLastChar s8 with
        | .ok longMin, .ok longSec =>
          match degMinSecToDecimal s5 longMin longSec s9 with
          | .error e => .error (.longitude e)
          | .ok long => .ok (lat, long)
        | _, _ => .error (.panicked .sliceBound)
    | _, _, _ => .error (.panicked .sliceBound)
  | sub => .error (.tokenCount sub.length)

example : parseGoFloat "29.00" = some (mkRat 2900 100) := by decide
example : parseGoFloat "" = none := by decide
example : parseGoFloat "51\x27" = none := by decide
example : skipLastChar "N," = .ok "N" := rfl
example : (mkRat 2900 100) = (29 : ℚ) := by decide

/-- The field-name constants of part_000, lines 18–35. -/
def APERTURE_KEY : String := "Aperture"

def SHUTTER_KEY : String := "ShutterSpeed"

def KEYWORDS_KEY : String := "Keywords"

def CAMERA_KEY : String := "Model"

def LENS_KEY : String := "LensModel"

def MIMETYPE_KEY : String := "MIMEType"

def HEIGHT_KEY : String := "ImageHeight"

def WIDTH_KEY : String := "ImageWidth"

def CAPTUREDATE_KEY : String := "CreateDate"

def GPS_KEY : String := "GPSPosition"

def IMAGE_MIME_TYPE : String := "image/"

/-- The constant `ES_BULK_LINE_HEADER` (part_000, line 32). -/
def ES_BULK_LINE_HEADER : String := "\x7b \"index\":\x7b\x7d \x7d"

/-- The value of `os.PathSeparator` on the target platform. -/
def PATH_SEPARATOR : Char := '/'

/-- A wall-clock timestamp as parsed by `time.Parse` with layout
`"2006:01:02 15:04:05"` (no zone, so Go interprets it as UTC). -/
structure SrcDate : Type where
  year : ℕ
  month : ℕ
  day : ℕ
  hour : ℕ
  minute : ℕ
  second : ℕ
deriving DecidableEq, Repr

/-- Gregorian leap-year rule, as in Go's `time` package. -/
def isLeapYear (y : ℕ) : Bool :=
  y % 4 = 0 ∧ (y % 100 ≠ 0 ∨ y % 400 = 0)

/-- Length of a month in a given year. -/
def daysInMonth (y m : ℕ) : ℕ :=
  match m with
  | 1 => 31
  | 2 => if isLeapYear y then 29 else 28
  | 3 => 31
  | 4 => 30
  | 5 => 31
  | 6 => 30
  | 7 => 31
  | 8 => 31
  | 9 => 30
  | 10 => 31
  | 11 => 30
  | 12 => 31
  | _ => 0

/-- Days in the months strictly before month `m` of year `y`. -/
def daysBeforeMonth (y m : ℕ) : ℕ :=
  (List.range (m - 1)).foldl (fun a i => a + daysInMonth y (i + 1)) 0

/-- Number of leap years in `[0, y)` (year 0 is a leap year). -/
def leapYearsBefore (y : ℕ) : ℕ :=
  (y + 3) / 4 - (y + 99) / 100 + (y + 399) / 400

/-- Days from 0000-01-01 to `y`-`m`-`d` in the proleptic Gregorian
calendar. -/
def daysFromYear0 (y m d : ℕ) : ℕ :=
  365 * y + leapYearsBefore y + daysBeforeMonth y m + (d - 1)

/-- The value of `daysFromYear0 1970 1 1`: the Unix epoch. -/
def epochDays : ℕ := 719528

/-- The Unix-seconds value `time.Time.Unix()` returns for a timestamp
parsed without a zone offset (i.e. interpreted in UTC). -/
def unixSeconds (dt : SrcDate) : ℤ :=
  ((daysFromYear0 dt.year dt.month dt.day : ℤ) - (epochDays : ℤ)) * 86400 +
    dt.hour * 3600 + dt.minute * 60 + dt.second

/-- Embedding of `time.Parse("2006:01:02 15:04:05", s)`: exactly
4-digit year and zero-padded 2-digit fields separated by the literal
separators of the layout, with Go's range validation (month 1–12, day
within the month, hour ≤ 23, minute/second ≤ 59). -/
def parseSrcDate (s : String) : Option SrcDate :=
  match s.toList with
  | [y1, y2, y3, y4, ':', mo1, mo2, ':', d1, d2, ' ', h1, h2, ':', mi1, mi2, ':', se1, se2] =>
    if ([y1, y2, y3, y4, mo1, mo2, d1, d2, h1, h2, mi1, mi2, se1, se2].all Char.isDigit) then
      let y := digitsToNat [y1, y2, y3, y4]
      let mo := digitsToNat [mo1, mo2]
      let d := digitsToNat [d1, d2]
      let h := digitsToNat [h1, h2]
      let mi := digitsToNat [mi1, mi2]
      let se := digitsToNat [se1, se2]
      if 1 ≤ mo ∧ mo ≤ 12 ∧ 1 ≤ d ∧ d ≤ daysInMonth y mo ∧ h ≤ 23 ∧ mi ≤ 59 ∧ se ≤ 59 then
        some ⟨y, mo, d, h, mi, se⟩
      else none
    else none
  | _ => none

/-- Modelled from the spec: the output record `model.Model` (package
`internal/model`, whose file is not under `src/`).  Field names and
types are reconstructed from their uses in part_000 (`convert`, lines
144–192) and from §3 of the spec; Go pointer fields (`*float64`,
`*string`, `*uint64`) and the nilable keyword slice become `Option`. -/
structure Model : Type where
  Aperture : Option ℚ
  ShutterSpeed : Option String
  CameraModel : Option String
  LensModel : Option String
  MimeType : Option String
  Height : Option ℕ
  Width : Option ℕ
  Keywords : Option (List String)
  FileSize : ℕ
  FileName : String
  Folder : String
  Date : Option String
  GPS : Option String
deriving DecidableEq, Repr

/-- The `os.FileInfo` data `convert` reads: `Name()` and `Size()`
(sizes are non-negative, so `Size()`'s int64 is modelled as ℕ). -/
structure GoFileInfo : Type where
  name : String
  size : ℕ
deriving DecidableEq, Repr

/-- Failure outcomes of part_000's `convert` (lines 134–193): the
wrong-metadata-count error, the date-parse error, a wrapped GPS format
error — all returned as Go `error` values — or a runtime panic from an
unchecked type assertion or from `skipLastChar`. -/
inductive ConvErr : Type where
  | wrongCount (n : ℕ)
  | dateParse (s : String)
  | gpsConvert (e : GpsError)
  | goPanic (p : GoPanic)
deriving DecidableEq, Repr

/-- The in-order element conversion `kws[i] = v.(string)` of part_000,
lines 163–166: the first non-string element panics. -/
def keywordStrings : List ExifValue → Except GoPanic (List String)
  | [] => .ok []
  | .str s :: rest => (keywordStrings rest).map (fun l => s :: l)
  | _ :: _ => .error .typeAssertion

/-- The keyword block of part_000's `convert` (lines 159–171): a native
array is converted element-wise (panicking on a non-string element), a
single string is promoted to a one-element list, any other present
value leaves the keyword slice nil. -/
def decodeKeywords (meta : FileMetadata) : Except GoPanic (Option (List String)) :=
  match meta.Fields.lookup KEYWORDS_KEY with
  | none => .ok none
  | some (.arr vs) => (keywordStrings vs).map some
  | some (.str s) => .ok (some [s])
  | some _ => .ok none

/-- The date block of part_000's `convert` (lines 173–181): a present
value is asserted to be a string (else panic), parsed in the source
layout (failure is a returned error), and rendered as
`strconv.FormatInt(t.Unix()*1000, 10)`. -/
def decodeDate (meta : FileMetadata) : Except ConvErr (Option String) :=
  match meta.Fields.lookup CAPTUREDATE_KEY with
  | none => .ok none
  | some (.str ds) =>
    match parseSrcDate ds with
    | none => .error (.dateParse ds)
    | some dt => .ok (some (toString (unixSeconds dt * 1000)))
  | some _ => .error (.goPanic .typeAssertion)

/-- The GPS block of part_000's `convert` (lines 183–190): a present
value is asserted to be a string (else panic); a format error from
`convertGPSCoordinates` is wrapped and returned, a panic propagates;
on success the pair is rendered as `fmt.Sprintf("%v,%v", lat, long)`. -/
def decodeGPS (meta : FileMetadata) : Except ConvErr (Option String) :=
  match meta.Fields.lookup GPS_KEY with
  | none => .ok none
  | some (.str gs) =>
    match convertGPSCoordinates gs with
    | .error (.panicked p) => .error (.goPanic p)
    | .error e => .error (.gpsConvert e)
    | .ok (lat, long) => .ok (some (formatGoFloat lat ++ "," ++ formatGoFloat long))
  | some _ => .error (.goPanic .typeAssertion)

/-- Embedding of part_000's `convert` (lines 134–193), in the source's
evaluation order: metadata-count check, scalar fields, file info,
folder, keywords, date, GPS. -/
def convert (f : String) (fInfo : GoFileInfo) (metas : List FileMetadata) : Except ConvErr Model :=
  match metas with
  | [meta] =>
    match getFloat meta APERTURE_KEY with
    | .error p => .error (.goPanic p)
    | .ok aperture =>
      match getUint64FromFloat64 meta HEIGHT_KEY with
      | .error p => .error (.goPanic p)
      | .ok height =>
        match getUint64FromFloat64 meta WIDTH_KEY with
        | .error p => .error (.goPanic p)
        | .ok width =>
          match decodeKeywords meta with
          | .error p => .error (.goPanic p)
          | .ok keywords =>
            match decodeDate meta with
            | .error e => .error e
            | .ok date =>
              match decodeGPS meta with
              | .error e => .error e
              | .ok gps =>
                let components := goSplit f PATH_SEPARATOR
                .ok { Aperture := aperture
                      ShutterSpeed := getString meta SHUTTER_KEY
                      CameraModel := getString meta CAMERA_KEY
                      LensModel := getString meta LENS_KEY
                      MimeType := getString meta MIMETYPE_KEY
                      Height := height
                      Width := width
                      Keywords := keywords
                      FileSize := fInfo.size
                      FileName := fInfo.name
                      Folder := if components.length > 1 then
                          components.getD (components.length - 2) ""
                        else ""
                      Date := date
                      GPS := gps }
  | ms => .error (.wrongCount ms.length)

example : epochDays = daysFromYear0 1970 1 1 := by decide
example : parseSrcDate "2021:03:15 10:30:00" = some ⟨2021, 3, 15, 10, 30, 0⟩ := by decide
example : unixSeconds ⟨2021, 3, 15, 10, 30, 0⟩ = 1615804200 := by decide
example : parseSrcDate "2021:13:15 10:30:00" = none := by decide
example : parseSrcDate "2021:02:29 10:30:00" = none := by decide

/-- One callback invocation of `filepath.Walk` as seen by `Index`
(part_000, lines 77–95): a regular file, a directory, or a traversal
error handed to the callback (which returns it, aborting the walk). -/
inductive WalkEvent : Type where
  | file (path : String) (info : GoFileInfo)
  | dir (path : String)
  | failure (msg : String)

/-- The external collaborators `Index` consumes: the exiftool extraction
result per path, and whether the JSON encoder's write succeeds for a
record (an oracle for the external sink; the header `Fprintln`'s error
is discarded by the source, so it has no oracle). -/
structure IndexWorld : Type where
  extract : String → List FileMetadata
  encodeOk : Model → Bool

/-- One line of `Index`'s output stream: the fixed bulk header line
(`ES_BULK_LINE_HEADER`) or the JSON encoding of a `Model`. -/
inductive OutLine : Type where
  | header
  | record (pic : Model)
deriving DecidableEq, Repr

/-- How a run of `Index` ends: normally (with the lines written and
`Index`'s return value) or by a propagating runtime panic. -/
inductive IndexOutcome : Type where
  | done (lines : List OutLine) (err : Option String)
  | panicked (lines : List OutLine) (p : GoPanic)
deriving DecidableEq, Repr

/-- The emission guard of part_000, line 86:
`pic.MimeType != nil && strings.HasPrefix(*pic.MimeType, IMAGE_MIME_TYPE)`. -/
def mimeIsImage (pic : Model) : Bool :=
  match pic.MimeType with
  | some mt => goStartsWith mt IMAGE_MIME_TYPE
  | none => false

/-- Lines written for one successfully converted file (part_000, lines
86–91): nothing unless the MIME type is an image type; otherwise the
header line, then the record line provided the JSON encoder succeeds
(an encoder error is only logged, leaving a dangling header). -/
def emitLines (w : IndexWorld) (pic : Model) : List OutLine :=
  if mimeIsImage pic then
    .header :: (if w.encodeOk pic then [.record pic] else [])
  else []

/-- Embedding of `Index` (part_000, lines 75–101) over the sequence of
walk callbacks: a traversal error aborts the walk and is wrapped into
`Index`'s only non-nil return; a conversion error is logged and skipped
(a conversion panic propagates); a converted record contributes
`emitLines`. -/
def Index (w : IndexWorld) : List WalkEvent → IndexOutcome
  | [] => .done [] none
  | .failure msg :: _ => .done [] (some ("error while browsing directory: " ++ msg))
  | .dir _ :: rest => Index w rest
  | .file p i :: rest =>
    match convert p i (w.extract p) with
    | .error (.goPanic gp) => .panicked [] gp
    | .error _ => Index w rest
    | .ok pic =>
      match Index w rest with
      | .done ls e => .done (emitLines w pic ++ ls) e
      | .panicked ls gp => .panicked (emitLines w pic ++ ls) gp

/-- The synchronization-relevant actions of `Dump`'s own goroutine
(indexer.go, lines 163–187), in program order. -/
inductive OrchStep : Type where
  | spawnEmitter
  | spawnConverters
  | browseWalk
  | closeTaskChannel
  | cancelPipeline
  | waitGroups
  | returnError (msg : String)
  | returnNil
deriving DecidableEq, Repr

/-- Control-flow trace of `Dump`'s main goroutine (indexer.go, lines
163–187), as a function of the directory walk's result: spawn the
emitter (line 171) and the converter pool (line 172), run
`common.BrowseImages` synchronously (lines 174–179), close the task
channel (line 180); then, on a walk error, `cancel()` and return the
wrapped error (lines 181–184) — without reaching `wg.Wait()` — and on
walk success, `wg.Wait()` and return nil (lines 185–186). -/
def dumpMainTrace (walkErr : Option String) : List OrchStep :=
  [.spawnEmitter, .spawnConverters, .browseWalk, .closeTaskChannel] ++
    match walkErr with
    | some e => [.cancelPipeline, .returnError ("error while browsing directory: " ++ e)]
    | none => [.waitGroups, .returnNil]

/-- The value `Dump` returns (indexer.go, lines 181–186), as a function
of the walk's result and of whether/what failure a converter worker or
the emitter signalled.  The workers and the emitter signal failure only
through `cancel()` and a log line (indexer.go, lines 114–123 and
142–153): no error value flows back to `Dump`, so `Dump`'s return value
cannot depend on the second argument. -/
def dumpResult (walkErr : Option String) (_downstreamErr : Option String) : Option String :=
  match walkErr with
  | some e => some ("error while browsing directory: " ++ e)
  | none => none

/-- The subset of `net/url.URL` that `Push` touches. -/
structure ParsedUrl : Type where
  scheme : String
  host : String
  path : String
deriving DecidableEq, Repr

/-- An outgoing HTTP POST as issued by `Push`. -/
structure HttpRequest : Type where
  url : String
  contentType : String
  body : String
deriving DecidableEq, Repr

/-- The external collaborators of `Push`: `url.Parse` (failure as
`none`) and the HTTP client's `Post` (transport error, or a status
code). -/
structure HttpEnv : Type where
  parseUrl : String → Option ParsedUrl
  post : HttpRequest → Except String ℕ

/-- The error values of `Push` (indexer.go, lines 222–243), one per
`fmt.Errorf` site: URL parse failure, transport failure, or a status
code outside [200, 300) — the latter carrying the code, as the
source's message `"Wrong status code (%v)"` does. -/
inductive PushErr : Type where
  | urlParse (u : String)
  | transport (msg : String)
  | wrongStatus (code : ℕ)
deriving DecidableEq, Repr

def ndJsonMimeType : String := "application/x-ndjson"

def bulkSuffix : String := "_bulk"

/-- Strips trailing separators off a path component. -/
def dropTrailingSlashes (p : String) : String :=
  ((p.toList.reverse.dropWhile (fun c => c = '/')).reverse).asString

/-- Embedding of `path.Join(p, s)` for a nonempty suffix `s` without dot segments:
the cleaned concatenation. -/
def pathJoin (p s : String) : String :=
  if p = "" then s else dropTrailingSlashes p ++ "/" ++ s

/-- Embedding of `url.URL.String()` restricted to the fields modelled. -/
def renderUrl (u : ParsedUrl) : String :=
  u.scheme ++ "://" ++ u.host ++ u.path

/-- The request `Push` issues once the URL has parsed (indexer.go,
lines 227–232): the parsed URL with `_bulk` joined onto its path,
content type `application/x-ndjson`, and the buffer as body. -/
def mkBulkRequest (u : ParsedUrl) (body : String) : HttpRequest :=
  { url := renderUrl { u with path := pathJoin u.path bulkSuffix }
    contentType := ndJsonMimeType
    body := body }

/-- Embedding of `Push` (indexer.go, lines 222–243).  Returns the list
of POSTs issued (zero or one) together with `Push`'s result: an error
exactly on URL-parse failure, transport failure, or a status code
outside [200, 300). -/
def Push (env : HttpEnv) (confUrl : String) (buffer : String) :
    List HttpRequest × Except PushErr Unit :=
  match env.parseUrl confUrl with
  | none => ([], .error (.urlParse confUrl))
  | some u =>
    let req := mkBulkRequest u buffer
    match env.post req with
    | .error msg => ([req], .error (.transport msg))
    | .ok status =>
      if status < 200 ∨ 300 ≤ status then ([req], .error (.wrongStatus status))
      else ([req], .ok ())

example : goSplit "a  b" ' ' = ["a", "", "b"] := by decide
example : goSplit "" ' ' = [""] := by decide
example : goSplit "a/b/c.jpg" '/' = ["a", "b", "c.jpg"] := by decide
example : goStartsWith "image/jpeg" "image/" = true := by decide
example : goStartsWith "video/mp4" "image/" = false := by decide

/-! ## Claim C1 — what `Dump` returns when workers or the emitter fail -/

/-- C1, counterexample: with a successful walk and a downstream
(worker/emitter) failure signalled, `Dump` still returns nil — not the
non-nil error the claim requires. -/
theorem dumpResult_nil_on_downstream_failure :
    dumpResult none (some "conversion error") = none := rfl

/-- C1 (amended): `Dump`'s return value is exactly the wrapped walk
error, independent of any downstream failure: a walk error takes
precedence over (indeed, is never displaced by) a downstream error, and
a downstream failure alone — the walk having succeeded — leaves `Dump`
returning nil, the failure being reported only through cancellation and
logging. -/
theorem dumpResult_eq_wrapped_walk_error (walkErr downstreamErr : Option String) :
    dumpResult walkErr downstreamErr =
      walkErr.map (fun e => "error while browsing directory: " ++ e) := by
  cases walkErr <;> rfl

/-! ## Claim C2 — whether `Dump` waits for its goroutines on every path -/

/-- C2, counterexample: on a failing walk, `Dump`'s main goroutine runs
cancel and returns the wrapped error without ever reaching `wg.Wait()`:
the wait step is absent from its trace. -/
theorem dumpMainTrace_walk_error_skips_wait :
    dumpMainTrace (some "walk failure") =
      [.spawnEmitter, .spawnConverters, .browseWalk, .closeTaskChannel, .cancelPipeline,
        .returnError "error while browsing directory: walk failure"] ∧
    (dumpMainTrace (some "walk failure")).contains .waitGroups = false := by
  exact ⟨rfl, by decide⟩

/-- C2 (amended): `Dump` waits on `wg.Wait()` for the emitter and the
converter pool only on the path where the walk succeeds; on every
walk-error path it returns without waiting (the spawned goroutines may
thus outlive the `Dump` call). -/
theorem dumpMainTrace_waits_only_on_success :
    (dumpMainTrace none).contains .waitGroups = true ∧
      ∀ e : String, (dumpMainTrace (some e)).contains .waitGroups = false := by
  exact ⟨by decide, fun e => rfl⟩

/-! ## Claim C7 — `convert` demands exactly one metadata record -/

/-- The date block can fail only with a date-parse error or a panic,
never with the wrong-count error. -/
theorem decodeDate_ne_wrongCount (meta : FileMetadata) (n : ℕ) :
    decodeDate meta ≠ .error (.wrongCount n) := by
  intro h
  simp only [decodeDate] at h
  repeat' split at h
  all_goals simp_all

/-- The GPS block can fail only with a wrapped GPS format error or a
panic, never with the wrong-count error. -/
theorem decodeGPS_ne_wrongCount (meta : FileMetadata) (n : ℕ) :
    decodeGPS meta ≠ .error (.wrongCount n) := by
  intro h
  simp only [decodeGPS] at h
  repeat' split at h
  all_goals simp_all

/-- C7: `convert` returns the wrong-metadata-count error precisely when
the extraction facility returned a record count other than one: with
count ≠ 1 it returns that error (carrying the count), a `Model` is only
ever produced from a single record, and with exactly one record the
wrong-count error cannot occur (any failure is then a conversion
failure of a different kind). -/
theorem convert_single_record_contract (f : String) (i : GoFileInfo)
    (metas : List FileMetadata) :
    (metas.length ≠ 1 → convert f i metas = .error (.wrongCount metas.length)) ∧
      (∀ pic : Model, convert f i metas = .ok pic → metas.length = 1) ∧
      (metas.length = 1 → ∀ n : ℕ, convert f i metas ≠ .error (.wrongCount n)) := by
  match metas with
  | [] =>
    refine ⟨fun _ => rfl, fun pic h => by exact absurd h (by simp [convert]), fun h => by simp at h⟩
  | [meta] =>
    refine ⟨fun h => absurd rfl h, fun pic _ => rfl, fun _ n h => ?_⟩
    simp only [convert] at h
    repeat' split at h
    all_goals simp_all
    · exact decodeDate_ne_wrongCount meta n (by simp_all)
    · exact decodeGPS_ne_wrongCount meta n (by simp_all)
  | a :: b :: rest =>
    refine ⟨fun _ => rfl, fun pic h => ?_, fun h => by simp at h⟩
    exact absurd h (by simp [convert])

/-- Witness for C7: with zero records, `convert` fails with the
wrong-count error carrying 0. -/
theorem convert_single_record_contract_witness :
    convert "d/f.jpg" ⟨"f.jpg", 10⟩ [] = .error (.wrongCount 0) :=
  (convert_single_record_contract "d/f.jpg" ⟨"f.jpg", 10⟩ []).1 (by decide)

/-! ## Claim C9 — the `skipLastChar` panic on an empty token -/

/-- A 10-token GPS string whose token at index 2 is empty (two
consecutive spaces after the first `deg`). -/
def gpsPanicInput : String := "48 deg  29.00\" N, 2 deg 17\x27 40.00\" E"

/-- C9: an input that splits into exactly 10 tokens but has an empty
token at index 2 makes `convertGPSCoordinates` panic in `skipLastChar`
(slice bound below zero) instead of returning a format error;
`skipLastChar` panics exactly on the empty string and succeeds on any
non-empty one (sample shown). -/
theorem convertGPSCoordinates_panic_on_empty_token :
    (goSplit gpsPanicInput ' ').length = 10 ∧
      (goSplit gpsPanicInput ' ').getD 2 "x" = "" ∧
      convertGPSCoordinates gpsPanicInput = .error (.panicked .sliceBound) ∧
      (convertGPSCoordinates gpsPanicInput).toOption = none ∧
      skipLastChar "" = .error .sliceBound ∧
      skipLastChar "N," = .ok "N" := by
  refine ⟨by decide, by decide, rfl, rfl, rfl, rfl⟩

/-! ## GPS helper lemmas -/

theorem parseGoFloat_empty : parseGoFloat "" = none := rfl

theorem string_eq_empty_of_length_zero (s : String) (hc : s.length = 0) : s = "" := by
  cases s with
  | mk data =>
    cases data with
    | nil => rfl
    | cons c cs => simp [String.length] at hc

/-- On a non-empty string `skipLastChar` succeeds with the last
character dropped. -/
theorem skipLastChar_ok (s : String) (h : s ≠ "") :
    skipLastChar s = .ok (s.dropRight 1) := by
  rw [skipLastChar, if_neg]
  intro hc
  exact h (string_eq_empty_of_length_zero s hc)

/-- A string whose one-shorter form parses as a float is non-empty. -/
theorem ne_empty_of_parse (s : String) (q : ℚ)
    (h : parseGoFloat (s.dropRight 1) = some q) : s ≠ "" := by
  intro he
  subst he
  rw [show ("" : String).dropRight 1 = "" from rfl, parseGoFloat_empty] at h
  exact Option.noConfusion h

/-- A string whose one-shorter form is a hemisphere letter is
non-empty. -/
theorem ne_empty_of_letter (s : String)
    (h : s.dropRight 1 = "N" ∨ s.dropRight 1 = "S" ∨ s.dropRight 1 = "E" ∨
      s.dropRight 1 = "W") : s ≠ "" := by
  intro he
  subst he
  rcases h with h | h | h | h <;> exact absurd h (by decide)

/-- The spec's formula for one DMS group: `deg + min/60 + sec/3600`,
sign-negated for the `S` and `W` hemispheres. -/
def dmsValue (d m s : ℚ) (letter : String) : ℚ :=
  (d + m / 60 + s / 3600) * (if letter = "S" ∨ letter = "W" then -1 else 1)

/-- With three parsed tokens and a valid hemisphere letter,
`degMinSecToDecimal` yields exactly the spec formula. -/
theorem degMinSecToDecimal_ok (deg mins secs letter : String) (d m s : ℚ)
    (hd : parseGoFloat deg = some d) (hm : parseGoFloat mins = some m)
    (hs : parseGoFloat secs = some s)
    (hlet : letter = "N" ∨ letter = "S" ∨ letter = "E" ∨ letter = "W") :
    degMinSecToDecimal deg mins secs letter = .ok (dmsValue d m s letter) := by
  rcases hlet with h | h | h | h <;> subst h <;>
    simp [degMinSecToDecimal, hd, hm, hs, dmsValue]

/-- A failed numeric token or an invalid hemisphere letter makes
`degMinSecToDecimal` fail. -/
theorem degMinSecToDecimal_fails (deg mins secs letter : String)
    (h : parseGoFloat deg = none ∨ parseGoFloat mins = none ∨ parseGoFloat secs = none ∨
      ¬(letter = "N" ∨ letter = "S" ∨ letter = "E" ∨ letter = "W")) :
    ∃ e : DmsErr, degMinSecToDecimal deg mins secs letter = .error e := by
  cases hd : parseGoFloat deg with
  | none => exact ⟨.degParse deg, by simp [degMinSecToDecimal, hd]⟩
  | some d =>
    cases hm : parseGoFloat mins with
    | none => exact ⟨.minParse mins, by simp [degMinSecToDecimal, hd, hm]⟩
    | some m =>
      cases hs : parseGoFloat secs with
      | none => exact ⟨.secParse secs, by simp [degMinSecToDecimal, hd, hm, hs]⟩
      | some s =>
        rcases h with h | h | h | h
        · simp_all
        · simp_all
        · simp_all
        · refine ⟨.unsupportedLetter letter, ?_⟩
          have h1 : ¬(letter = "S" ∨ letter = "W") := fun hc => h (by tauto)
          have h2 : ¬(letter = "N" ∨ letter = "E") := fun hc => h (by tauto)
          simp [degMinSecToDecimal, hd, hm, hs, h1, h2]

/-- With ten tokens whose stripped positions are non-empty (so no
`skipLastChar` panic), `convertGPSCoordinates` reduces to the two
`degMinSecToDecimal` calls on the processed tokens. -/
theorem convertGPSCoordinates_eq_of_split
    (s s0 s1 s2 s3 s4 s5 s6 s7 s8 s9 : String)
    (hsplit : goSplit s ' ' = [s0, s1, s2, s3, s4, s5, s6, s7, s8, s9])
    (h2 : s2 ≠ "") (h3 : s3 ≠ "") (h4 : s4 ≠ "") (h7 : s7 ≠ "") (h8 : s8 ≠ "") :
    convertGPSCoordinates s =
      match degMinSecToDecimal s0 (s2.dropRight 1) (s3.dropRight 1) (s4.dropRight 1) with
      | .error e => .error (.latitude e)
      | .ok lat =>
        match degMinSecToDecimal s5 (s7.dropRight 1) (s8.dropRight 1) s9 with
        | .error e => .error (.longitude e)
        | .ok long => .ok (lat, long) := by
  simp only [convertGPSCoordinates, hsplit, skipLastChar_ok s2 h2, skipLastChar_ok s3 h3,
    skipLastChar_ok s4 h4, skipLastChar_ok s7 h7, skipLastChar_ok s8 h8]

/-! ## Claim C3 — the GPS conversion formula on well-formed input -/

/-- C3: on any input splitting into exactly ten tokens whose processed
numeric tokens parse as decimals and whose hemisphere letters (as
consumed: latitude letter stripped of its trailing character, longitude
letter raw) are in {N, S, E, W}, `convertGPSCoordinates` returns for
each group exactly `deg + min/60 + sec/3600`, sign-negated for S/W. -/
theorem convertGPSCoordinates_formula
    (s s0 s1 s2 s3 s4 s5 s6 s7 s8 s9 : String)
    (hsplit : goSplit s ' ' = [s0, s1, s2, s3, s4, s5, s6, s7, s8, s9])
    (d1 m1 c1 d2 m2 c2 : ℚ)
    (hd1 : parseGoFloat s0 = some d1)
    (hm1 : parseGoFloat (s2.dropRight 1) = some m1)
    (hc1 : parseGoFloat (s3.dropRight 1) = some c1)
    (hl1 : s4.dropRight 1 = "N" ∨ s4.dropRight 1 = "S" ∨ s4.dropRight 1 = "E" ∨
      s4.dropRight 1 = "W")
    (hd2 : parseGoFloat s5 = some d2)
    (hm2 : parseGoFloat (s7.dropRight 1) = some m2)
    (hc2 : parseGoFloat (s8.dropRight 1) = some c2)
    (hl2 : s9 = "N" ∨ s9 = "S" ∨ s9 = "E" ∨ s9 = "W") :
    convertGPSCoordinates s =
      .ok (dmsValue d1 m1 c1 (s4.dropRight 1), dmsValue d2 m2 c2 s9) := by
  have h2 := ne_empty_of_parse s2 m1 hm1
  have h3 := ne_empty_of_parse s3 c1 hc1
  have h4 := ne_empty_of_letter s4 hl1
  have h7 := ne_empty_of_parse s7 m2 hm2
  have h8 := ne_empty_of_parse s8 c2 hc2
  rw [convertGPSCoordinates_eq_of_split s s0 s1 s2 s3 s4 s5 s6 s7 s8 s9 hsplit h2 h3 h4 h7 h8,
    degMinSecToDecimal_ok _ _ _ _ _ _ _ hd1 hm1 hc1 hl1,
    degMinSecToDecimal_ok _ _ _ _ _ _ _ hd2 hm2 hc2 hl2]

/-- The exiftool-style GPS position of the Eiffel Tower, as consumed by
the converter (note the comma after the latitude hemisphere, stripped
by `skipLastChar`). -/
def gpsExample : String := "48 deg 51\x27 29.00\" N, 2 deg 17\x27 40.00\" E"

/-- Witness for C3: the example input yields exactly
`48 + 51/60 + 29/3600` and `2 + 17/60 + 40/3600`, approximately
48.858 and 2.294. -/
theorem convertGPSCoordinates_formula_witness :
    convertGPSCoordinates gpsExample =
      .ok (48 + 51 / 60 + 29 / 3600, 2 + 17 / 60 + 40 / 3600) ∧
      |(48 + 51 / 60 + 29 / 3600 : ℚ) - 48.858| < 1 / 1000 ∧
      |(2 + 17 / 60 + 40 / 3600 : ℚ) - 2.294| < 1 / 1000 := by
  have h := convertGPSCoordinates_formula gpsExample
    "48" "deg" "51\x27" "29.00\"" "N," "2" "deg" "17\x27" "40.00\"" "E" (by decide)
    48 51 29 2 17 40 (by decide) (by decide) (by decide) (by decide)
    (by decide) (by decide) (by decide) (by decide)
  refine ⟨?_, by rw [abs_lt]; constructor <;> norm_num, by rw [abs_lt]; constructor <;> norm_num⟩
  rw [h]
  have e1 : ("N," : String).dropRight 1 = "N" := by decide
  rw [e1]
  simp only [dmsValue, if_neg (show ¬(("N" : String) = "S" ∨ ("N" : String) = "W") by decide),
    if_neg (show ¬(("E" : String) = "S" ∨ ("E" : String) = "W") by decide)]
  norm_num

/-! ## Claim C5 — the GPS format-error conditions -/

/-- C5, counterexample: a 10-token input whose longitude minute token
(index 7) is empty satisfies the claim's "numeric token fails to parse
as a decimal" condition, yet the function panics in `skipLastChar`
rather than returning a format error. -/
def gpsPanicInput2 : String := "48 deg 51\x27 29.00\" N, 2 deg  40.00\" E"

/-- C5, counterexample theorem: on `gpsPanicInput2` (10 tokens, empty
token at index 7), `convertGPSCoordinates` ends in a panic, which is
not one of its format errors. -/
theorem convertGPSCoordinates_empty_token_no_format_error :
    (goSplit gpsPanicInput2 ' ').length = 10 ∧
      (goSplit gpsPanicInput2 ' ').getD 7 "x" = "" ∧
      convertGPSCoordinates gpsPanicInput2 = .error (.panicked .sliceBound) ∧
      GpsError.isFormatError (.panicked .sliceBound) = false := by
  refine ⟨by decide, by decide, rfl, rfl⟩

/-- C5 (amended): `convertGPSCoordinates` reports a format error on a
token count other than ten, and — provided the five tokens it strips
(indices 2, 3, 4, 7, 8) are non-empty, the empty ones panicking in
`skipLastChar` instead — its every failure is a format error, and a
failed numeric parse or an out-of-range hemisphere letter among the
consumed tokens guarantees such a failure. -/
theorem convertGPSCoordinates_format_errors :
    (∀ s : String, (goSplit s ' ').length ≠ 10 →
        convertGPSCoordinates s = .error (.tokenCount (goSplit s ' ').length)) ∧
      (∀ s s0 s1 s2 s3 s4 s5 s6 s7 s8 s9 : String,
        goSplit s ' ' = [s0, s1, s2, s3, s4, s5, s6, s7, s8, s9] →
        s2 ≠ "" → s3 ≠ "" → s4 ≠ "" → s7 ≠ "" → s8 ≠ "" →
        (∀ e : GpsError, convertGPSCoordinates s = .error e → e.isFormatError = true) ∧
          ((parseGoFloat s0 = none ∨ parseGoFloat (s2.dropRight 1) = none ∨
              parseGoFloat (s3.dropRight 1) = none ∨
              ¬(s4.dropRight 1 = "N" ∨ s4.dropRight 1 = "S" ∨ s4.dropRight 1 = "E" ∨
                s4.dropRight 1 = "W") ∨
              parseGoFloat s5 = none ∨ parseGoFloat (s7.dropRight 1) = none ∨
              parseGoFloat (s8.dropRight 1) = none ∨
              ¬(s9 = "N" ∨ s9 = "S" ∨ s9 = "E" ∨ s9 = "W")) →
            ∃ e : GpsError, convertGPSCoordinates s = .error e ∧ e.isFormatError = true)) := by
  constructor
  · intro s h
    rw [convertGPSCoordinates]
    split
    · next s0 s1 s2 s3 s4 s5 s6 s7 s8 s9 heq =>
      rw [heq] at h
      simp at h
    · rfl
  · intro s s0 s1 s2 s3 s4 s5 s6 s7 s8 s9 hsplit h2 h3 h4 h7 h8
    have hre := convertGPSCoordinates_eq_of_split s s0 s1 s2 s3 s4 s5 s6 s7 s8 s9
      hsplit h2 h3 h4 h7 h8
    constructor
    · intro e he
      rw [hre] at he
      cases hdms1 : degMinSecToDecimal s0 (s2.dropRight 1) (s3.dropRight 1) (s4.dropRight 1) with
      | error e1 =>
        rw [hdms1] at he
        simp only [Except.error.injEq] at he
        subst he
        rfl
      | ok lat =>
        rw [hdms1] at he
        cases hdms2 : degMinSecToDecimal s5 (s7.dropRight 1) (s8.dropRight 1) s9 with
        | error e2 =>
          rw [hdms2] at he
          simp only [Except.error.injEq] at he
          subst he
          rfl
        | ok long =>
          rw [hdms2] at he
          exact absurd he (by simp)
    · intro hcond
      have latFail :
          (parseGoFloat s0 = none ∨ parseGoFloat (s2.dropRight 1) = none ∨
            parseGoFloat (s3.dropRight 1) = none ∨
            ¬(s4.dropRight 1 = "N" ∨ s4.dropRight 1 = "S" ∨ s4.dropRight 1 = "E" ∨
              s4.dropRight 1 = "W")) →
          ∃ e : GpsError, convertGPSCoordinates s = .error e ∧ e.isFormatError = true := by
        intro hcnd
        obtain ⟨e1, he1⟩ := degMinSecToDecimal_fails s0 (s2.dropRight 1) (s3.dropRight 1)
          (s4.dropRight 1) hcnd
        exact ⟨.latitude e1, by rw [hre, he1], rfl⟩
      have longFail :
          (parseGoFloat s5 = none ∨ parseGoFloat (s7.dropRight 1) = none ∨
            parseGoFloat (s8.dropRight 1) = none ∨
            ¬(s9 = "N" ∨ s9 = "S" ∨ s9 = "E" ∨ s9 = "W")) →
          ∃ e : GpsError, convertGPSCoordinates s = .error e ∧ e.isFormatError = true := by
        intro hcnd
        cases hdms1 : degMinSecToDecimal s0 (s2.dropRight 1) (s3.dropRight 1)
            (s4.dropRight 1) with
        | error e1 => exact ⟨.latitude e1, by rw [hre, hdms1], rfl⟩
        | ok lat =>
          obtain ⟨e2, he2⟩ := degMinSecToDecimal_fails s5 (s7.dropRight 1) (s8.dropRight 1)
            s9 hcnd
          exact ⟨.longitude e2, by rw [hre, hdms1, he2], rfl⟩
      rcases hcond with h | h | h | h | h | h | h | h
      · exact latFail (Or.inl h)
      · exact latFail (Or.inr (Or.inl h))
      · exact latFail (Or.inr (Or.inr (Or.inl h)))
      · exact latFail (Or.inr (Or.inr (Or.inr h)))
      · exact longFail (Or.inl h)
      · exact longFail (Or.inr (Or.inl h))
      · exact longFail (Or.inr (Or.inr (Or.inl h)))
      · exact longFail (Or.inr (Or.inr (Or.inr h)))

/-- Witness for C5 (amended): a two-token input gets the token-count
format error carrying 2. -/
theorem convertGPSCoordinates_format_errors_witness :
    convertGPSCoordinates "a b" = .error (.tokenCount (goSplit "a b" ' ').length) ∧
      (goSplit "a b" ' ').length = 2 :=
  ⟨convertGPSCoordinates_format_errors.1 "a b" (by decide), by decide⟩

/-! ## Claim C4 — tolerance of the field decoders -/

/-- C4, counterexample: a numeric-looking string under a numeric key —
a coercion the claim says is tolerated — makes `getFloat` and
`getUint64FromFloat64` panic on the unchecked `v.(float64)` assertion,
and a keyword array containing a non-string element makes the keyword
decode panic on `v.(string)`; none of these is treated as absent. -/
theorem fieldDecoders_panic_counterexample :
    getFloat ⟨[(APERTURE_KEY, .str "12.5")]⟩ APERTURE_KEY = .error .typeAssertion ∧
      getUint64FromFloat64 ⟨[(HEIGHT_KEY, .str "640")]⟩ HEIGHT_KEY = .error .typeAssertion ∧
      decodeKeywords ⟨[(KEYWORDS_KEY, .arr [.str "a", .num 3])]⟩ = .error .typeAssertion :=
  ⟨rfl, rfl, rfl⟩

/-- C4 (amended): a missing key is absence, never an error or panic,
for every decoder; `getString` is fully tolerant (string kept, float
formatted, anything else absent); but `getFloat` and
`getUint64FromFloat64` panic on any present non-float64 value —
including a numeric-looking string — and the keyword decode, which
promotes a single string to a one-element list and treats a present
non-array non-string value as absent, panics on an array containing a
non-string element. -/
theorem fieldDecoders_tolerance (m : FileMetadata) (k : String) :
    (m.Fields.lookup k = none →
        getFloat m k = .ok none ∧ getString m k = none ∧
          getUint64FromFloat64 m k = .ok none) ∧
      (∀ q : ℚ, m.Fields.lookup k = some (.num q) →
        getFloat m k = .ok (some q) ∧ getString m k = some (formatGoFloat q) ∧
          getUint64FromFloat64 m k = .ok (some (goFloatToUint64 q))) ∧
      (∀ s : String, m.Fields.lookup k = some (.str s) →
        getString m k = some s ∧ getFloat m k = .error .typeAssertion ∧
          getUint64FromFloat64 m k = .error .typeAssertion) ∧
      (∀ b : Bool, m.Fields.lookup k = some (.boolean b) →
        getString m k = none ∧ getFloat m k = .error .typeAssertion ∧
          getUint64FromFloat64 m k = .error .typeAssertion) ∧
      (m.Fields.lookup KEYWORDS_KEY = none → decodeKeywords m = .ok none) ∧
      (∀ s : String, m.Fields.lookup KEYWORDS_KEY = some (.str s) →
        decodeKeywords m = .ok (some [s])) ∧
      (∀ b : Bool, m.Fields.lookup KEYWORDS_KEY = some (.boolean b) →
        decodeKeywords m = .ok none) ∧
      (∀ vs : List ExifValue, m.Fields.lookup KEYWORDS_KEY = some (.arr vs) →
        decodeKeywords m = (keywordStrings vs).map some) := by
  refine ⟨fun h => ?_, fun q h => ?_, fun s h => ?_, fun b h => ?_,
    fun h => ?_, fun s h => ?_, fun b h => ?_, fun vs h => ?_⟩ <;>
    simp [getFloat, getString, getUint64FromFloat64, decodeKeywords, h]

/-- Witness for C4 (amended): a record without an `Aperture` key yields
absence from all three scalar decoders. -/
theorem fieldDecoders_tolerance_witness :
    getFloat ⟨[(SHUTTER_KEY, .str "1/250")]⟩ APERTURE_KEY = .ok none ∧
      getString ⟨[(SHUTTER_KEY, .str "1/250")]⟩ APERTURE_KEY = none ∧
      getUint64FromFloat64 ⟨[(SHUTTER_KEY, .str "1/250")]⟩ APERTURE_KEY = .ok none :=
  (fieldDecoders_tolerance ⟨[(SHUTTER_KEY, .str "1/250")]⟩ APERTURE_KEY).1 rfl

/-! ## Claim C8 — the `Push` HTTP contract -/

/-- C8: `Push` fails exactly on URL-parse failure, transport failure,
or a status outside [200, 300): with an unparsable URL no request is
issued and the parse error is returned; with a parsed URL exactly one
POST is issued, whose content type is `application/x-ndjson` and whose
URL ends in the `_bulk` suffix; a transport error is returned as such,
and a returned status yields an error carrying that status code iff it
lies outside [200, 300). -/
theorem Push_contract (env : HttpEnv) (confUrl buffer : String) :
    (env.parseUrl confUrl = none →
        Push env confUrl buffer = ([], .error (.urlParse confUrl))) ∧
      (∀ u : ParsedUrl, env.parseUrl confUrl = some u →
        (Push env confUrl buffer).1 = [mkBulkRequest u buffer] ∧
          (mkBulkRequest u buffer).contentType = ndJsonMimeType ∧
          (∃ p : String, (mkBulkRequest u buffer).url = p ++ bulkSuffix) ∧
          (∀ msg : String, env.post (mkBulkRequest u buffer) = .error msg →
            (Push env confUrl buffer).2 = .error (.transport msg)) ∧
          (∀ status : ℕ, env.post (mkBulkRequest u buffer) = .ok status →
            (Push env confUrl buffer).2 =
              if status < 200 ∨ 300 ≤ status then .error (.wrongStatus status)
              else .ok ())) := by
  constructor
  · intro h
    simp [Push, h]
  · intro u hu
    refine ⟨?_, rfl, ?_, ?_, ?_⟩
    · simp only [Push, hu]
      split <;> first | rfl | split <;> rfl
    · by_cases hp : u.path = ""
      · exact ⟨u.scheme ++ "://" ++ u.host, by
          simp [mkBulkRequest, renderUrl, pathJoin, hp, String.append_assoc]⟩
      · exact ⟨u.scheme ++ "://" ++ u.host ++ (dropTrailingSlashes u.path ++ "/"), by
          simp [mkBulkRequest, renderUrl, pathJoin, hp, String.append_assoc]⟩
    · intro msg hmsg
      simp [Push, hu, hmsg]
    · intro status hstatus
      simp only [Push, hu, hstatus]
      split <;> simp_all

/-! ## Claim C6 — the capture-date conversion -/

/-- True when the fields `convert` touches before the date block —
aperture, height, width, keywords — do not panic, so that control
reaches the date block. -/
def scalarsAndKeywordsSafe (meta : FileMetadata) : Bool :=
  (match getFloat meta APERTURE_KEY with
    | .ok _ => true
    | .error _ => false) &&
  (match getUint64FromFloat64 meta HEIGHT_KEY with
    | .ok _ => true
    | .error _ => false) &&
  (match getUint64FromFloat64 meta WIDTH_KEY with
    | .ok _ => true
    | .error _ => false) &&
  (match decodeKeywords meta with
    | .ok _ => true
    | .error _ => false)

/-- Whatever model `convert` returns carries the date block's value in
its `Date` field. -/
theorem convert_ok_decodeDate (f : String) (i : GoFileInfo) (meta : FileMetadata)
    (pic : Model) (h : convert f i [meta] = .ok pic) :
    decodeDate meta = .ok pic.Date := by
  simp only [convert] at h
  repeat' split at h
  all_goals simp_all
  all_goals rw [← h]

/-- C6: when the capture-date key holds a string in the source layout,
every model `convert` returns has its date field set to the
epoch-millisecond value (Unix seconds × 1000) of that timestamp,
rendered in decimal; and when the string fails to parse in that layout
(the earlier fields not panicking first), `convert` returns the
date-parse hard error. -/
theorem convert_capture_date (f : String) (i : GoFileInfo) (meta : FileMetadata)
    (ds : String) (hl : meta.Fields.lookup CAPTUREDATE_KEY = some (.str ds)) :
    (∀ dt : SrcDate, parseSrcDate ds = some dt → ∀ pic : Model,
        convert f i [meta] = .ok pic →
        pic.Date = some (toString (unixSeconds dt * 1000))) ∧
      (scalarsAndKeywordsSafe meta = true → parseSrcDate ds = none →
        convert f i [meta] = .error (.dateParse ds)) := by
  constructor
  · intro dt hdt pic hpic
    have hdate : decodeDate meta = .ok (some (toString (unixSeconds dt * 1000))) := by
      simp [decodeDate, hl, hdt]
    have hd := convert_ok_decodeDate f i meta pic hpic
    rw [hdate] at hd
    exact (Except.ok.injEq _ _ ▸ hd).symm
  · intro hsafe hnone
    have hdate : decodeDate meta = .error (.dateParse ds) := by
      simp [decodeDate, hl, hnone]
    simp only [scalarsAndKeywordsSafe, Bool.and_eq_true] at hsafe
    obtain ⟨⟨⟨hA, hH⟩, hW⟩, hK⟩ := hsafe
    cases hA2 : getFloat meta APERTURE_KEY with
    | error p => rw [hA2] at hA; simp at hA
    | ok av =>
      cases hH2 : getUint64FromFloat64 meta HEIGHT_KEY with
      | error p => rw [hH2] at hH; simp at hH
      | ok hv =>
        cases hW2 : getUint64FromFloat64 meta WIDTH_KEY with
        | error p => rw [hW2] at hW; simp at hW
        | ok wv =>
          cases hK2 : decodeKeywords meta with
          | error p => rw [hK2] at hK; simp at hK
          | ok kv =>
            simp [convert, hA2, hH2, hW2, hK2, hdate]

/-- The metadata record for the C6 witness: a capture date and an image
MIME type. -/
def metaW : FileMetadata :=
  ⟨[(CAPTUREDATE_KEY, .str "2021:03:15 10:30:00"), (MIMETYPE_KEY, .str "image/jpeg")]⟩

/-- The model `convert` produces from `metaW`. -/
def picW : Model :=
  { Aperture := none
    ShutterSpeed := none
    CameraModel := none
    LensModel := none
    MimeType := some "image/jpeg"
    Height := none
    Width := none
    Keywords := none
    FileSize := 5
    FileName := "a.jpg"
    Folder := "d"
    Date := some "1615804200000"
    GPS := none }

/-- Witness for C6: `"2021:03:15 10:30:00"` yields epoch milliseconds
1615804200000 (= 1615804200 s × 1000) as a decimal string. -/
theorem convert_capture_date_witness :
    picW.Date = some (toString (unixSeconds ⟨2021, 3, 15, 10, 30, 0⟩ * 1000)) ∧
      picW.Date = some "1615804200000" :=
  ⟨(convert_capture_date "d/a.jpg" ⟨"a.jpg", 5⟩ metaW "2021:03:15 10:30:00" rfl).1
      ⟨2021, 3, 15, 10, 30, 0⟩ rfl picW rfl, rfl⟩

/-! ## Claim C10 — the legacy sequential `Index` -/

/-- The claim's per-file characterization of `Index`'s output: each
regular file contributes its `emitLines` when it converts successfully
(nothing otherwise); directories and failures contribute nothing. -/
def indexExpectedLines (w : IndexWorld) : List WalkEvent → List OutLine
  | [] => []
  | .file p i :: rest =>
    (match convert p i (w.extract p) with
      | .ok pic => emitLines w pic
      | .error _ => []) ++ indexExpectedLines w rest
  | .dir _ :: rest => indexExpectedLines w rest
  | .failure _ :: rest => indexExpectedLines w rest

/-- Whether a file event's conversion would end in a runtime panic
(outside the claim's scope: `Index` would not return at all). -/
def convertPanics (w : IndexWorld) : WalkEvent → Bool
  | .file p i =>
    match convert p i (w.extract p) with
    | .error (.goPanic _) => true
    | _ => false
  | _ => false

def isFailureEvent : WalkEvent → Bool
  | .failure _ => true
  | _ => false

/-- C10: over any walk whose conversions do not panic, (i) if the
traversal reports no error, `Index` returns nil and writes exactly the
per-file lines — header and record only for files converting to an
image MIME type, nothing for other files and for files whose conversion
fails (the error being only logged); and (ii) whenever `Index` returns
a non-nil error, some traversal failure occurred and is what the error
wraps. -/
theorem Index_characterization (w : IndexWorld) (events : List WalkEvent)
    (hnp : events.all (fun ev => !convertPanics w ev) = true) :
    (events.all (fun ev => !isFailureEvent ev) = true →
        Index w events = .done (indexExpectedLines w events) none) ∧
      (∀ (ls : List OutLine) (e : String), Index w events = .done ls (some e) →
        ∃ msg : String, WalkEvent.failure msg ∈ events ∧
          e = "error while browsing directory: " ++ msg) := by
  induction events with
  | nil =>
    exact ⟨fun _ => rfl, fun ls e h => by simp [Index] at h⟩
  | cons ev rest ih =>
    simp only [List.all_cons, Bool.and_eq_true] at hnp
    obtain ⟨hev, hrest⟩ := hnp
    have ih' := ih hrest
    cases ev with
    | failure msg =>
      constructor
      · intro h
        simp [isFailureEvent] at h
      · intro ls e h
        simp only [Index] at h
        refine ⟨msg, by simp, ?_⟩
        injection h with h1 h2
        exact (Option.some.injEq _ _ ▸ h2).symm
    | dir p =>
      constructor
      · intro h
        simp only [List.all_cons, Bool.and_eq_true] at h
        show Index w rest = _
        rw [ih'.1 h.2]
        rfl
      · intro ls e h
        obtain ⟨msg, hmem, heq⟩ := ih'.2 ls e h
        exact ⟨msg, by simp [hmem], heq⟩
    | file p i =>
      simp only [convertPanics, Bool.not_eq_eq_eq_not, Bool.not_true] at hev
      cases hc : convert p i (w.extract p) with
      | error ce =>
        cases ce with
        | goPanic gp => rw [hc] at hev; simp at hev
        | wrongCount n =>
          refine ⟨fun h => ?_, fun ls e h => ?_⟩
          · simp only [List.all_cons, Bool.and_eq_true] at h
            show (match convert p i (w.extract p) with
              | .error (.goPanic gp) => IndexOutcome.panicked [] gp
              | .error _ => Index w rest
              | .ok pic => match Index w rest with
                | .done ls e => .done (emitLines w pic ++ ls) e
                | .panicked ls gp => .panicked (emitLines w pic ++ ls) gp) = _
            rw [hc, ih'.1 h.2]
            simp [indexExpectedLines, hc]
          · simp only [Index, hc] at h
            obtain ⟨msg, hmem, heq⟩ := ih'.2 ls e h
            exact ⟨msg, by simp [hmem], heq⟩
        | dateParse s =>
          refine ⟨fun h => ?_, fun ls e h => ?_⟩
          · simp only [List.all_cons, Bool.and_eq_true] at h
            show (match convert p i (w.extract p) with
              | .error (.goPanic gp) => IndexOutcome.panicked [] gp
              | .error _ => Index w rest
              | .ok pic => match Index w rest with
                | .done ls e => .done (emitLines w pic ++ ls) e
                | .panicked ls gp => .panicked (emitLines w pic ++ ls) gp) = _
            rw [hc, ih'.1 h.2]
            simp [indexExpectedLines, hc]
          · simp only [Index, hc] at h
            obtain ⟨msg, hmem, heq⟩ := ih'.2 ls e h
            exact ⟨msg, by simp [hmem], heq⟩
        | gpsConvert ge =>
          refine ⟨fun h => ?_, fun ls e h => ?_⟩
          · simp only [List.all_cons, Bool.and_eq_true] at h
            show (match convert p i (w.extract p) with
              | .error (.goPanic gp) => IndexOutcome.panicked [] gp
              | .error _ => Index w rest
              | .ok pic => match Index w rest with
                | .done ls e => .done (emitLines w pic ++ ls) e
                | .panicked ls gp => .panicked (emitLines w pic ++ ls) gp) = _
            rw [hc, ih'.1 h.2]
            simp [indexExpectedLines, hc]
          · simp only [Index, hc] at h
            obtain ⟨msg, hmem, heq⟩ := ih'.2 ls e h
            exact ⟨msg, by simp [hmem], heq⟩
      | ok pic =>
        refine ⟨fun h => ?_, fun ls e h => ?_⟩
        · simp only [List.all_cons, Bool.and_eq_true] at h
          simp only [Index, hc, ih'.1 h.2, indexExpectedLines]
        · simp only [Index, hc] at h
          cases hrec : Index w rest with
          | done ls' e' =>
            rw [hrec] at h
            injection h with h1 h2
            subst h2
            obtain ⟨msg, hmem, heq⟩ := ih'.2 ls' e hrec
            exact ⟨msg, by simp [hmem], heq⟩
          | panicked ls' gp =>
            rw [hrec] at h
            exact absurd h (by simp)

/-- The walk and collaborators for the C10 witness: one JPEG with image
metadata, one directory, one text file, and one file whose extraction
yields no record (conversion error, logged and skipped). -/
def wWitness : IndexWorld :=
  { extract := fun p =>
      if p = "d/a.jpg" then [metaW]
      else if p = "d/b.txt" then [⟨[(MIMETYPE_KEY, .str "text/plain")]⟩]
      else []
    encodeOk := fun _ => true }

def eventsWitness : List WalkEvent :=
  [.file "d/a.jpg" ⟨"a.jpg", 5⟩, .dir "d", .file "d/b.txt" ⟨"b.txt", 3⟩,
    .file "d/c.jpg" ⟨"c.jpg", 7⟩]

/-- Witness for C10: the run returns nil with exactly the two lines of
the one image file — a header and its record — the text file and the
failing file contributing nothing. -/
theorem Index_characterization_witness :
    Index wWitness eventsWitness = .done (indexExpectedLines wWitness eventsWitness) none ∧
      (indexExpectedLines wWitness eventsWitness).length = 2 ∧
      (indexExpectedLines wWitness eventsWitness).head? = some .header :=
  ⟨(Index_characterization wWitness eventsWitness rfl).1 rfl, rfl, rfl⟩

/-- The concrete HTTP environment for the `Push` witness: the
configured URL parses, and the backend answers 404. -/
def envW : HttpEnv :=
  { parseUrl := fun s =>
      if s = "http://example.org/es" then some ⟨"http", "example.org", "/es"⟩ else none
    post := fun _ => .ok 404 }

/-- Witness for C8: with a 404 answer, `Push` issues exactly the
ndjson `_bulk` POST and fails with the wrong-status error carrying
404. -/
theorem Push_contract_witness :
    (Push envW "http://example.org/es" "body").2 = .error (.wrongStatus 404) ∧
      (Push envW "http://example.org/es" "body").1 =
        [mkBulkRequest ⟨"http", "example.org", "/es"⟩ "body"] := by
  have h := (Push_contract envW "http://example.org/es" "body").2
    ⟨"http", "example.org", "/es"⟩ rfl
  have h5 := h.2.2.2.2 404 rfl
  norm_num at h5
  exact ⟨h5, h.1⟩
